import Mathlib

/-!
Verification of the Georilla geolocation attendance client and its backend
user-registration controller.

The session controller embedded here is the `GeolocationAttendanceSystem`
component (src/components/UI.tsx): its React `useState` fields become the
fields of `SessionState`, and each event handler / effect becomes a state
transition function.  The source computes geofence membership with
floating-point trigonometry (`calculateDistance` / `isWithinGeofence`); the
geometry is modelled over the real numbers, and the session transitions are
parameterized by the Boolean membership test `within` they consult, so that
the controller logic can be reasoned about (and evaluated) independently of
the transcendental arithmetic.  The backend `registerUser` controller
(backend/controllers/admin.controller.js) is modelled with the Mongo user
collection as a list and `User.findOne {email}` as a list search.
-/

namespace Georilla

/-- A latitude/longitude pair, as produced by the browser geolocation API.
Coordinates are modelled as rationals: every literal appearing in the source
is a decimal fraction. -/
structure Coordinates where
  latitude : ℚ
  longitude : ℚ
deriving DecidableEq

/-- A named circular geofence zone (interface `GeofenceZone` in UI.tsx). -/
structure GeofenceZone where
  id : String
  name : String
  latitude : ℚ
  longitude : ℚ
  radiusInMeters : ℚ
deriving DecidableEq

/-- The static zone registry `GEOFENCE_ZONES` of UI.tsx. -/
def GEOFENCE_ZONES : List GeofenceZone :=
  [ { id := "1", name := "Main Office", latitude := 28.470046,
      longitude := 77.493496, radiusInMeters := 100 },
    { id := "2", name := "Branch Office", latitude := 28.6236477,
      longitude := 77.3073903, radiusInMeters := 100 },
    { id := "3", name := "SRM Office", latitude := 28.796565,
      longitude := 77.538373, radiusInMeters := 1000 } ]

open Classical in
/-- `Math.atan2`, following the JavaScript specification case split. -/
noncomputable def atan2 (y x : ℝ) : ℝ :=
  if 0 < x then Real.arctan (y / x)
  else if x < 0 ∧ 0 ≤ y then Real.arctan (y / x) + Real.pi
  else if x < 0 ∧ y < 0 then Real.arctan (y / x) - Real.pi
  else if x = 0 ∧ 0 < y then Real.pi / 2
  else if x = 0 ∧ y < 0 then -(Real.pi / 2)
  else 0

/-- `calculateDistance` of UI.tsx: haversine great-circle distance in meters
between two latitude/longitude pairs, with Earth radius 6371e3 m. -/
noncomputable def calculateDistance (lat1 lon1 lat2 lon2 : ℝ) : ℝ :=
  let R : ℝ := 6371e3
  let phi1 := lat1 * Real.pi / 180
  let phi2 := lat2 * Real.pi / 180
  let dphi := (lat2 - lat1) * Real.pi / 180
  let dlam := (lon2 - lon1) * Real.pi / 180
  let a := Real.sin (dphi / 2) * Real.sin (dphi / 2) +
    Real.cos phi1 * Real.cos phi2 * Real.sin (dlam / 2) * Real.sin (dlam / 2)
  let c := 2 * atan2 (Real.sqrt a) (Real.sqrt (1 - a))
  R * c

/-- The center of a zone as a coordinate pair. -/
def zoneCenter (zone : GeofenceZone) : Coordinates :=
  { latitude := zone.latitude, longitude := zone.longitude }

/-- `calculateDistance` applied to two coordinate pairs. -/
noncomputable def distanceMeters (a b : Coordinates) : ℝ :=
  calculateDistance (a.latitude : ℝ) (a.longitude : ℝ) (b.latitude : ℝ) (b.longitude : ℝ)

/-- `isWithinGeofence` of UI.tsx: distance to the zone center is at most the
zone radius; a missing coordinate (the `if (!coords) return false` guard)
yields falsehood rather than an error. -/
def isWithinGeofence (coords : Option Coordinates) (zone : GeofenceZone) : Prop :=
  match coords with
  | none => False
  | some c => distanceMeters c (zoneCenter zone) ≤ (zone.radiusInMeters : ℝ)

/-- The two attendance actions of `AttendanceRecord.action`. -/
inductive AttendanceAction where
  | checkIn
  | checkOut
deriving DecidableEq

/-- A reading of the wall clock (`new Date()`): `epochMillis` is
`Date.now()` / `getTime()`, `hour` is the local-time `getHours()` value. -/
structure Instant where
  epochMillis : Nat
  hour : Nat
deriving DecidableEq

/-- `AttendanceRecord` of UI.tsx.  The source folds the annotation into the
`locationName` string, e.g. `"Main Office (Auto 8pm)"`. -/
structure AttendanceRecord where
  id : String
  timestamp : Instant
  action : AttendanceAction
  locationName : String
deriving DecidableEq

/-- The `useState`/`useRef` fields of `GeolocationAttendanceSystem` that the
session logic reads or writes.  `lastCheckedInZoneRef` is the zone recorded
at the moment of the last successful check-in (the spec's `checkInZone`). -/
structure SessionState where
  currentLocation : Option Coordinates
  nearbyZones : List GeofenceZone
  activeZone : Option GeofenceZone
  attendanceRecords : List AttendanceRecord
  checkedIn : Bool
  showDashboard : Bool
  faceVerified : Bool
  recognizedName : Option String
  proceedToFace : Bool
  earlyCheckouts : Nat
  lastCheckedInZoneRef : Option GeofenceZone
deriving DecidableEq

/-- The initial values of all the `useState`/`useRef` hooks. -/
def initialState : SessionState where
  currentLocation := none
  nearbyZones := []
  activeZone := none
  attendanceRecords := []
  checkedIn := false
  showDashboard := false
  faceVerified := false
  recognizedName := none
  proceedToFace := false
  earlyCheckouts := 0
  lastCheckedInZoneRef := none

/-- The Boolean membership test on an optional coordinate, mirroring the
null guard of `isWithinGeofence`.  The Boolean test `within` on present
coordinates abstracts the floating-point comparison of the source. -/
def isWithinB (within : Coordinates → GeofenceZone → Bool) :
    Option Coordinates → GeofenceZone → Bool
  | none, _ => false
  | some c, zone => within c zone

/-- `GEOFENCE_ZONES.filter((zone) => isWithinGeofence(currentLocation, zone))`:
the registry zones containing a point, in registry order. -/
def zonesContaining (within : Coordinates → GeofenceZone → Bool)
    (c : Coordinates) : List GeofenceZone :=
  GEOFENCE_ZONES.filter (fun zone => within c zone)

/-- The `setActiveZone` updater of the zone-recomputation effect in UI.tsx:
keep the previous active zone if its id still occurs among the nearby zones,
otherwise take the first nearby zone, otherwise none.  (The source's
`manualSelectionExists` re-test is the same condition as
`isPrevZoneStillNearby` and is therefore always false on its branch.) -/
def recomputeActiveZone (nearby : List GeofenceZone)
    (prev : Option GeofenceZone) : Option GeofenceZone :=
  match prev with
  | some z => if nearby.any (fun z2 => z2.id == z.id) then some z else nearby.head?
  | none => nearby.head?

/-- The zone-recomputation effect of UI.tsx, together with the location
write that triggers it: store the new location, recompute `nearbyZones`,
and recompute `activeZone`; a lost location clears both. -/
def locationUpdate (within : Coordinates → GeofenceZone → Bool)
    (loc : Option Coordinates) (s : SessionState) : SessionState :=
  match loc with
  | none =>
      { s with currentLocation := none, nearbyZones := [], activeZone := none }
  | some c =>
      let nearby := zonesContaining within c
      { s with currentLocation := some c
               nearbyZones := nearby
               activeZone := recomputeActiveZone nearby s.activeZone }

/-- `handleAutoCheckout` of UI.tsx: no-op unless checked in; otherwise count
an early checkout when applicable, append a check-out record, and clear the
check-in state and the verification-flow flags. -/
def handleAutoCheckout (zone : GeofenceZone) (is8pm : Bool) (now : Instant)
    (s : SessionState) : SessionState :=
  if s.checkedIn = false then s
  else
    let isEarly := !is8pm && decide (now.hour < 20)
    let s1 := if isEarly then { s with earlyCheckouts := s.earlyCheckouts + 1 } else s
    let record : AttendanceRecord :=
      { id := toString now.epochMillis ++ "-checkout-" ++ zone.id
        timestamp := now
        action := AttendanceAction.checkOut
        locationName := zone.name ++ " " ++
          (if is8pm then "(Auto 8pm)"
           else if isEarly then "(Early Auto)" else "(Auto Left Zone)") }
    { s1 with attendanceRecords := s1.attendanceRecords ++ [record]
              checkedIn := false
              proceedToFace := false
              faceVerified := false
              recognizedName := none
              lastCheckedInZoneRef := none }

/-- The auto-checkout effect of UI.tsx: while checked in with a recorded
check-in zone, a location outside that zone (or a lost location) triggers a
zone-exit checkout; otherwise, at or after 20:00 local time the deadline
checkout fires immediately (before 20:00 the source arms a timer, modelled
as the separate `deadline` event). -/
def autoCheckoutEffect (within : Coordinates → GeofenceZone → Bool)
    (now : Instant) (s : SessionState) : SessionState :=
  if s.checkedIn = false then s
  else
    match s.lastCheckedInZoneRef with
    | none => s
    | some checkOutZone =>
        let isOutsideCheckInZone :=
          match s.currentLocation with
          | some loc => !(within loc checkOutZone)
          | none => true
        if isOutsideCheckInZone then handleAutoCheckout checkOutZone false now s
        else if 20 ≤ now.hour then handleAutoCheckout checkOutZone true now s
        else s

/-- A complete location-update event: the location write plus the zone
recomputation, followed by the auto-checkout effect re-running on the new
location. -/
def locationUpdateEvent (within : Coordinates → GeofenceZone → Bool)
    (now : Instant) (loc : Option Coordinates) (s : SessionState) : SessionState :=
  autoCheckoutEffect within now (locationUpdate within loc s)

/-- `performCheckIn` of UI.tsx: append a check-in record named
`"<zone> (<user>)"`, set `checkedIn`, and record the check-in zone. -/
def performCheckIn (zone : GeofenceZone) (userName : String) (now : Instant)
    (s : SessionState) : SessionState :=
  let record : AttendanceRecord :=
    { id := toString now.epochMillis ++ "-checkin-" ++ zone.id
      timestamp := now
      action := AttendanceAction.checkIn
      locationName := zone.name ++ " (" ++ userName ++ ")" }
  { s with attendanceRecords := s.attendanceRecords ++ [record]
           checkedIn := true
           lastCheckedInZoneRef := some zone
           showDashboard := false
           proceedToFace := false }

/-- `handleInitiateCheckIn` of UI.tsx: requires an active zone, then opens
the face-verification step. -/
def handleInitiateCheckIn (s : SessionState) : SessionState :=
  match s.activeZone with
  | none => s
  | some _ => { s with proceedToFace := true }

/-- `handleManualCheckout` of UI.tsx: count an early checkout when before
20:00, append a manual check-out record, clear check-in state and flags. -/
def handleManualCheckout (zone : GeofenceZone) (now : Instant)
    (s : SessionState) : SessionState :=
  let isEarly := decide (now.hour < 20)
  let s1 := if isEarly then { s with earlyCheckouts := s.earlyCheckouts + 1 } else s
  let record : AttendanceRecord :=
    { id := toString now.epochMillis ++ "-checkout-" ++ zone.id
      timestamp := now
      action := AttendanceAction.checkOut
      locationName := zone.name ++ " " ++
        (if isEarly then "(Manual Early)" else "(Manual)") }
  { s1 with attendanceRecords := s1.attendanceRecords ++ [record]
            checkedIn := false
            proceedToFace := false
            faceVerified := false
            recognizedName := none
            lastCheckedInZoneRef := none }

/-- `handleInitiateCheckOut` of UI.tsx: a manual check-out request, a no-op
unless both an active zone exists and the user is checked in, in which case
`handleManualCheckout` runs on the currently active zone. -/
def handleInitiateCheckOut (now : Instant) (s : SessionState) : SessionState :=
  match s.activeZone with
  | none => s
  | some zone => if s.checkedIn = false then s else handleManualCheckout zone now s

/-- `handleFaceVerified` of UI.tsx: record the verification result, then
check in on the active zone when not already checked in; when the active
zone is gone, abort and reset the verification-flow flags. -/
def handleFaceVerified (name : String) (now : Instant)
    (s : SessionState) : SessionState :=
  let s1 := { s with faceVerified := true, recognizedName := some name }
  match s1.activeZone with
  | some zone =>
      if s1.checkedIn = false then performCheckIn zone name now s1 else s1
  | none => { s1 with proceedToFace := false, faceVerified := false }

/-- `selectZone` of UI.tsx: the user picks one of the listed nearby zones;
the face step is reset unless already verified. -/
def selectZone (zone : GeofenceZone) (s : SessionState) : SessionState :=
  let s1 := { s with activeZone := some zone }
  if s1.faceVerified = false then { s1 with proceedToFace := false } else s1

/-- One step of the session controller: any of the event handlers of
`GeolocationAttendanceSystem` firing.  The `select` event is restricted to
the zones the UI lists (`nearbyZones`), matching the click targets. -/
inductive Step (within : Coordinates → GeofenceZone → Bool) :
    SessionState → SessionState → Prop where
  | location (now : Instant) (loc : Option Coordinates) (s : SessionState) :
      Step within s (locationUpdateEvent within now loc s)
  | deadline (zone : GeofenceZone) (now : Instant) (s : SessionState) :
      Step within s (handleAutoCheckout zone true now s)
  | faceVerified (name : String) (now : Instant) (s : SessionState) :
      Step within s (handleFaceVerified name now s)
  | initiateCheckIn (s : SessionState) :
      Step within s (handleInitiateCheckIn s)
  | initiateCheckOut (now : Instant) (s : SessionState) :
      Step within s (handleInitiateCheckOut now s)
  | select (zone : GeofenceZone) (s : SessionState) (h : zone ∈ s.nearbyZones) :
      Step within s (selectZone zone s)

/-- The session states reachable from the initial hook values. -/
inductive Reachable (within : Coordinates → GeofenceZone → Bool) :
    SessionState → Prop where
  | init : Reachable within initialState
  | step {s t : SessionState} :
      Reachable within s → Step within s t → Reachable within t

/-- Both zone fields only ever hold registry zones. -/
def zonesOk (s : SessionState) : Prop :=
  (∀ z ∈ s.nearbyZones, z ∈ GEOFENCE_ZONES) ∧
  (∀ z, s.activeZone = some z → z ∈ GEOFENCE_ZONES)

/-- A stored user document of the `User` Mongo collection
(backend/models/userSchema.model.js). -/
structure StoredUser where
  firstName : String
  lastName : String
  email : String
  password : String
  companyName : String
  branchName : String
  profilePic : String
deriving DecidableEq

/-- The request body consumed by `registerUser`. -/
structure RegisterRequest where
  firstName : String
  lastName : String
  email : String
  password : String
  companyName : String
  branchName : String
  profilePic : String
deriving DecidableEq

/-- `User.findOne({ email })` over the collection modelled as a list. -/
def findOneByEmail (users : List StoredUser) (email : String) : Option StoredUser :=
  users.find? (fun u => u.email == email)

/-- The document `User.create` inserts: the request fields with the bcrypt
hash in place of the plain password. -/
def mkUser (req : RegisterRequest) (hashedPassword : String) : StoredUser where
  firstName := req.firstName
  lastName := req.lastName
  email := req.email
  password := hashedPassword
  companyName := req.companyName
  branchName := req.branchName
  profilePic := req.profilePic

/-- `registerUser` of backend/controllers/admin.controller.js: respond 409
and leave the collection unchanged when a user with the request email
already exists, otherwise insert the new user and respond 201.  The bcrypt
hash is an external input.  The result is the HTTP status paired with the
updated collection. -/
def registerUser (users : List StoredUser) (req : RegisterRequest)
    (hashedPassword : String) : Nat × List StoredUser :=
  match findOneByEmail users req.email with
  | some _ => (409, users)
  | none => (201, users ++ [mkUser req hashedPassword])

/-- The first registry zone, used to instantiate theorems on concrete inputs. -/
def mainOffice : GeofenceZone :=
  { id := "1", name := "Main Office", latitude := 28.470046,
    longitude := 77.493496, radiusInMeters := 100 }

/-- A morning clock reading (10:00 local time). -/
def tenAM : Instant := { epochMillis := 0, hour := 10 }

/-- An evening clock reading (21:00 local time). -/
def ninePM : Instant := { epochMillis := 1, hour := 21 }

/-- A session checked in at the Main Office while currently outside every
zone (`activeZone = none`), used to instantiate theorems. -/
def checkedInOutsideState : SessionState :=
  { initialState with checkedIn := true, lastCheckedInZoneRef := some mainOffice }

/-- The second registry zone, used to instantiate theorems. -/
def branchOffice : GeofenceZone :=
  { id := "2", name := "Branch Office", latitude := 28.6236477,
    longitude := 77.3073903, radiusInMeters := 100 }

/-- A session inside the Main Office with the face-verification step open,
not yet checked in. -/
def inZoneState : SessionState :=
  { initialState with
      nearbyZones := [mainOffice]
      activeZone := some mainOffice
      proceedToFace := true }

/-- A session checked in at the Main Office whose active zone has since
switched to the Branch Office. -/
def checkedInElsewhereState : SessionState :=
  { initialState with
      nearbyZones := [branchOffice]
      activeZone := some branchOffice
      checkedIn := true
      lastCheckedInZoneRef := some mainOffice }

/-- A sample registration request, used to instantiate theorems. -/
def sampleUserReq : RegisterRequest :=
  { firstName := "Pranay", lastName := "S", email := "pranay@georilla.app",
    password := "pw", companyName := "Georilla", branchName := "Main",
    profilePic := "" }

/-- A second registration request carrying the same email address. -/
def sampleUserReq2 : RegisterRequest :=
  { firstName := "Arindam", lastName := "S", email := "pranay@georilla.app",
    password := "pw2", companyName := "Georilla", branchName := "Main",
    profilePic := "" }

/-- A one-user directory already holding the sample email. -/
def sampleDirectory : List StoredUser := [mkUser sampleUserReq "hash1"]

/-! ### Helper lemmas about the transition functions -/

theorem mem_of_head?_eq {l : List GeofenceZone} {z : GeofenceZone}
    (h : l.head? = some z) : z ∈ l := by
  cases l with
  | nil => simp at h
  | cons x xs =>
      simp at h
      simp [h]

theorem handleAutoCheckout_of_not_checkedIn (zone : GeofenceZone) (is8pm : Bool)
    (now : Instant) (s : SessionState) (h : s.checkedIn = false) :
    handleAutoCheckout zone is8pm now s = s := by
  unfold handleAutoCheckout
  rw [if_pos h]

theorem handleAutoCheckout_of_checkedIn (zone : GeofenceZone) (is8pm : Bool)
    (now : Instant) (s : SessionState) (h : s.checkedIn = true) :
    handleAutoCheckout zone is8pm now s =
      { s with
        earlyCheckouts :=
          if (!is8pm && decide (now.hour < 20)) = true
          then s.earlyCheckouts + 1 else s.earlyCheckouts
        attendanceRecords := s.attendanceRecords ++
          [{ id := toString now.epochMillis ++ "-checkout-" ++ zone.id
             timestamp := now
             action := AttendanceAction.checkOut
             locationName := zone.name ++ " " ++
               (if is8pm then "(Auto 8pm)"
                else if (!is8pm && decide (now.hour < 20)) = true
                then "(Early Auto)" else "(Auto Left Zone)") }]
        checkedIn := false
        proceedToFace := false
        faceVerified := false
        recognizedName := none
        lastCheckedInZoneRef := none } := by
  unfold handleAutoCheckout
  rw [if_neg (by simp [h])]
  by_cases hE : (!is8pm && decide (now.hour < 20)) = true
  · simp only [hE, if_true]
  · simp only [hE, if_false, Bool.false_eq_true]

theorem handleManualCheckout_eq (zone : GeofenceZone) (now : Instant)
    (s : SessionState) :
    handleManualCheckout zone now s =
      { s with
        earlyCheckouts :=
          if now.hour < 20 then s.earlyCheckouts + 1 else s.earlyCheckouts
        attendanceRecords := s.attendanceRecords ++
          [{ id := toString now.epochMillis ++ "-checkout-" ++ zone.id
             timestamp := now
             action := AttendanceAction.checkOut
             locationName := zone.name ++ " " ++
               (if now.hour < 20 then "(Manual Early)" else "(Manual)") }]
        checkedIn := false
        proceedToFace := false
        faceVerified := false
        recognizedName := none
        lastCheckedInZoneRef := none } := by
  unfold handleManualCheckout
  by_cases hE : now.hour < 20
  · simp [hE]
  · simp [hE]

theorem autoCheckoutEffect_of_not_checkedIn
    (within : Coordinates → GeofenceZone → Bool) (now : Instant)
    (s : SessionState) (h : s.checkedIn = false) :
    autoCheckoutEffect within now s = s := by
  unfold autoCheckoutEffect
  rw [if_pos h]

theorem autoCheckoutEffect_of_outside
    (within : Coordinates → GeofenceZone → Bool) (now : Instant)
    (s : SessionState) (zone : GeofenceZone)
    (h1 : s.checkedIn = true)
    (h2 : s.lastCheckedInZoneRef = some zone)
    (h3 : isWithinB within s.currentLocation zone = false) :
    autoCheckoutEffect within now s = handleAutoCheckout zone false now s := by
  unfold autoCheckoutEffect
  rw [if_neg (by simp [h1]), h2]
  cases hc : s.currentLocation with
  | none => simp
  | some loc =>
      rw [hc] at h3
      simp only [isWithinB] at h3
      simp [h3]

theorem locationUpdate_attendanceRecords
    (within : Coordinates → GeofenceZone → Bool) (loc : Option Coordinates)
    (s : SessionState) :
    (locationUpdate within loc s).attendanceRecords = s.attendanceRecords := by
  cases loc <;> rfl

theorem locationUpdate_checkedIn
    (within : Coordinates → GeofenceZone → Bool) (loc : Option Coordinates)
    (s : SessionState) :
    (locationUpdate within loc s).checkedIn = s.checkedIn := by
  cases loc <;> rfl

theorem locationUpdate_lastCheckedInZoneRef
    (within : Coordinates → GeofenceZone → Bool) (loc : Option Coordinates)
    (s : SessionState) :
    (locationUpdate within loc s).lastCheckedInZoneRef = s.lastCheckedInZoneRef := by
  cases loc <;> rfl

theorem locationUpdate_earlyCheckouts
    (within : Coordinates → GeofenceZone → Bool) (loc : Option Coordinates)
    (s : SessionState) :
    (locationUpdate within loc s).earlyCheckouts = s.earlyCheckouts := by
  cases loc <;> rfl

theorem locationUpdate_currentLocation
    (within : Coordinates → GeofenceZone → Bool) (loc : Option Coordinates)
    (s : SessionState) :
    (locationUpdate within loc s).currentLocation = loc := by
  cases loc <;> rfl

theorem locationUpdateEvent_records_of_not_checkedIn
    (within : Coordinates → GeofenceZone → Bool) (now : Instant)
    (loc : Option Coordinates) (s : SessionState) (h : s.checkedIn = false) :
    (locationUpdateEvent within now loc s).attendanceRecords = s.attendanceRecords := by
  unfold locationUpdateEvent
  rw [autoCheckoutEffect_of_not_checkedIn _ _ _
    (by rw [locationUpdate_checkedIn]; exact h)]
  exact locationUpdate_attendanceRecords within loc s

/-! ### Claim theorems -/

/-- Claim C7: with `checkedIn = false`, a manual check-out request is a
complete no-op: the state (ledger included) is returned unchanged, and the
handler is a total function, so no exception can be raised. -/
theorem checkout_noop_when_not_checked_in (now : Instant) (s : SessionState)
    (h : s.checkedIn = false) : handleInitiateCheckOut now s = s := by
  unfold handleInitiateCheckOut
  cases ha : s.activeZone with
  | none => rfl
  | some zone =>
      dsimp only
      rw [if_pos h]

theorem checkout_noop_when_not_checked_in_witness :
    handleInitiateCheckOut tenAM initialState = initialState :=
  checkout_noop_when_not_checked_in tenAM initialState rfl

/-- Claim C8: the deadline-timer callback (`handleAutoCheckout` with the
8pm flag) is idempotent: a second invocation after the first one has
already cleared `checkedIn` appends no record and leaves the state
unchanged. -/
theorem deadline_callback_idempotent (zone zone2 : GeofenceZone)
    (now now2 : Instant) (s : SessionState) :
    handleAutoCheckout zone2 true now2 (handleAutoCheckout zone true now s) =
      handleAutoCheckout zone true now s := by
  cases h : s.checkedIn with
  | false =>
      rw [handleAutoCheckout_of_not_checkedIn _ _ _ _ h,
        handleAutoCheckout_of_not_checkedIn _ _ _ _ h]
  | true =>
      rw [handleAutoCheckout_of_checkedIn _ _ _ _ h]
      exact handleAutoCheckout_of_not_checkedIn _ _ _ _ rfl

/-- Claim C3: a zone-exit or manual check-out strictly before 20:00 local
time increments `earlyCheckouts` by exactly one (and leaves it unchanged at
or after 20:00), while the 20:00-deadline check-out never changes it. -/
theorem early_checkout_counting (zone : GeofenceZone) (now : Instant)
    (s : SessionState) (h : s.checkedIn = true) :
    (handleAutoCheckout zone false now s).earlyCheckouts =
      (if now.hour < 20 then s.earlyCheckouts + 1 else s.earlyCheckouts) ∧
    (handleManualCheckout zone now s).earlyCheckouts =
      (if now.hour < 20 then s.earlyCheckouts + 1 else s.earlyCheckouts) ∧
    (handleAutoCheckout zone true now s).earlyCheckouts = s.earlyCheckouts := by
  refine ⟨?_, ?_, ?_⟩
  · rw [handleAutoCheckout_of_checkedIn _ _ _ _ h]
    by_cases hE : now.hour < 20 <;> simp [hE]
  · rw [handleManualCheckout_eq]
  · rw [handleAutoCheckout_of_checkedIn _ _ _ _ h]
    simp

theorem early_checkout_counting_witness :
    (handleAutoCheckout mainOffice false tenAM checkedInOutsideState).earlyCheckouts = 1 :=
  (early_checkout_counting mainOffice tenAM checkedInOutsideState rfl).1

/-- Claim C2: a location update arriving while checked in, whose location is
outside the recorded check-in zone (`lastCheckedInZoneRef`, not the active
zone) or absent, appends exactly one zone-exit check-out record (rendered
`"(Early Auto)"` before 20:00 and `"(Auto Left Zone)"` otherwise, the
source's spelling of the auto-exit annotation) and clears `checkedIn`;
every subsequent location update appends no further record. -/
theorem zone_exit_auto_checkout (within : Coordinates → GeofenceZone → Bool)
    (now : Instant) (loc : Option Coordinates) (s : SessionState)
    (zone : GeofenceZone)
    (hin : s.checkedIn = true)
    (href : s.lastCheckedInZoneRef = some zone)
    (hout : isWithinB within loc zone = false) :
    (locationUpdateEvent within now loc s).attendanceRecords =
      s.attendanceRecords ++
        [{ id := toString now.epochMillis ++ "-checkout-" ++ zone.id
           timestamp := now
           action := AttendanceAction.checkOut
           locationName := zone.name ++ " " ++
             (if now.hour < 20 then "(Early Auto)" else "(Auto Left Zone)") }] ∧
    (locationUpdateEvent within now loc s).checkedIn = false ∧
    ∀ now2 loc2,
      (locationUpdateEvent within now2 loc2 (locationUpdateEvent within now loc s)).attendanceRecords =
        (locationUpdateEvent within now loc s).attendanceRecords := by
  have h2 : (locationUpdate within loc s).checkedIn = true := by
    rw [locationUpdate_checkedIn]; exact hin
  have h1 : locationUpdateEvent within now loc s =
      handleAutoCheckout zone false now (locationUpdate within loc s) := by
    unfold locationUpdateEvent
    refine autoCheckoutEffect_of_outside within now _ zone h2 ?_ ?_
    · rw [locationUpdate_lastCheckedInZoneRef]; exact href
    · rw [locationUpdate_currentLocation]; exact hout
  have hF : (locationUpdateEvent within now loc s).checkedIn = false := by
    rw [h1, handleAutoCheckout_of_checkedIn _ _ _ _ h2]
  refine ⟨?_, hF, ?_⟩
  · rw [h1, handleAutoCheckout_of_checkedIn _ _ _ _ h2]
    show (locationUpdate within loc s).attendanceRecords ++ _ = _
    rw [locationUpdate_attendanceRecords]
    by_cases hE : now.hour < 20 <;> simp [hE]
  · intro now2 loc2
    exact locationUpdateEvent_records_of_not_checkedIn within now2 loc2 _ hF

theorem zone_exit_auto_checkout_witness :
    (locationUpdateEvent (fun _ _ => false) tenAM none checkedInOutsideState).checkedIn = false :=
  (zone_exit_auto_checkout (fun _ _ => false) tenAM none checkedInOutsideState
    mainOffice rfl rfl rfl).2.1

/-- Claim C6 counterexample: a session can be checked in while `activeZone`
is none (the user left all zones before the exit checkout fired, or checked
in and the zone list was cleared by a location error); there the manual
check-out request returns the state unchanged and appends no record, so
`checkedIn = true` is not the only precondition.  Moreover, when the active
zone differs from the check-in zone, the appended record carries the active
zone's name, not `checkInZone.name`. -/
theorem manual_checkout_claim_counterexample :
    checkedInOutsideState.checkedIn = true ∧
    handleInitiateCheckOut tenAM checkedInOutsideState = checkedInOutsideState ∧
    checkedInElsewhereState.checkedIn = true ∧
    checkedInElsewhereState.lastCheckedInZoneRef = some mainOffice ∧
    (handleInitiateCheckOut ninePM checkedInElsewhereState).attendanceRecords.map
      (fun r => r.locationName) = ["Branch Office (Manual)"] := by
  refine ⟨rfl, rfl, rfl, rfl, ?_⟩
  decide

/-- Claim C6 (amended): a manual check-out request requires both
`checkedIn = true` and a non-none `activeZone` (when the active zone is
none — user outside every zone or location errored — the request is a
no-op); when both hold it appends exactly one check-out record whose zone
name is the active zone's name (annotation `"(Manual Early)"` when the
local hour is before 20:00, `"(Manual)"` otherwise), increments
`earlyCheckouts` when before 20:00, sets `checkedIn` to false and clears
`checkInZone`. -/
theorem manual_checkout_behavior (now : Instant) (s : SessionState) :
    (∀ zone, s.activeZone = some zone → s.checkedIn = true →
      (handleInitiateCheckOut now s).attendanceRecords =
        s.attendanceRecords ++
          [{ id := toString now.epochMillis ++ "-checkout-" ++ zone.id
             timestamp := now
             action := AttendanceAction.checkOut
             locationName := zone.name ++ " " ++
               (if now.hour < 20 then "(Manual Early)" else "(Manual)") }] ∧
      (handleInitiateCheckOut now s).checkedIn = false ∧
      (handleInitiateCheckOut now s).lastCheckedInZoneRef = none ∧
      (handleInitiateCheckOut now s).earlyCheckouts =
        (if now.hour < 20 then s.earlyCheckouts + 1 else s.earlyCheckouts)) ∧
    (s.activeZone = none → handleInitiateCheckOut now s = s) := by
  constructor
  · intro zone hz hin
    have hE : handleInitiateCheckOut now s = handleManualCheckout zone now s := by
      unfold handleInitiateCheckOut
      simp only [hz]
      rw [if_neg (by simp [hin])]
    rw [hE, handleManualCheckout_eq]
    exact ⟨rfl, rfl, rfl, rfl⟩
  · intro hz
    unfold handleInitiateCheckOut
    simp only [hz]

theorem manual_checkout_behavior_witness :
    (handleInitiateCheckOut tenAM
      { initialState with
          nearbyZones := [mainOffice]
          activeZone := some mainOffice
          checkedIn := true
          lastCheckedInZoneRef := some mainOffice }).checkedIn = false :=
  ((manual_checkout_behavior tenAM _).1 mainOffice rfl rfl).2.1

/-- Claim C5: a verification-success event checks in (appending a record
whose name combines the active zone's name and the recognized label, with
`checkInZone := activeZone`) only when the active zone is non-none and the
session is not already checked in; when the active zone became none, no
record is appended and the spec-level session fields (location, zones,
check-in status, counter, ledger) are unchanged; when already checked in,
no record is appended. -/
theorem face_verified_checkin (name : String) (now : Instant) (s : SessionState) :
    (∀ zone, s.activeZone = some zone → s.checkedIn = false →
      (handleFaceVerified name now s).attendanceRecords =
        s.attendanceRecords ++
          [{ id := toString now.epochMillis ++ "-checkin-" ++ zone.id
             timestamp := now
             action := AttendanceAction.checkIn
             locationName := zone.name ++ " (" ++ name ++ ")" }] ∧
      (handleFaceVerified name now s).checkedIn = true ∧
      (handleFaceVerified name now s).lastCheckedInZoneRef = some zone) ∧
    (s.activeZone = none →
      (handleFaceVerified name now s).attendanceRecords = s.attendanceRecords ∧
      (handleFaceVerified name now s).checkedIn = s.checkedIn ∧
      (handleFaceVerified name now s).lastCheckedInZoneRef = s.lastCheckedInZoneRef ∧
      (handleFaceVerified name now s).activeZone = s.activeZone ∧
      (handleFaceVerified name now s).nearbyZones = s.nearbyZones ∧
      (handleFaceVerified name now s).currentLocation = s.currentLocation ∧
      (handleFaceVerified name now s).earlyCheckouts = s.earlyCheckouts) ∧
    (s.checkedIn = true →
      (handleFaceVerified name now s).attendanceRecords = s.attendanceRecords) := by
  refine ⟨?_, ?_, ?_⟩
  · intro zone hz hin
    unfold handleFaceVerified
    dsimp only
    simp only [hz]
    rw [if_pos hin]
    exact ⟨rfl, rfl, rfl⟩
  · intro hz
    have hE : handleFaceVerified name now s =
        { s with faceVerified := false, recognizedName := some name, proceedToFace := false } := by
      unfold handleFaceVerified
      dsimp only
      simp only [hz]
    rw [hE]
    exact ⟨rfl, rfl, rfl, rfl, rfl, rfl, rfl⟩
  · intro hin
    unfold handleFaceVerified
    dsimp only
    cases hz : s.activeZone with
    | none => rfl
    | some zone =>
        dsimp only
        rw [if_neg (by simp [hin])]

theorem face_verified_checkin_witness :
    (handleFaceVerified "Pranay" tenAM inZoneState).checkedIn = true :=
  ((face_verified_checkin "Pranay" tenAM inZoneState).1 mainOffice rfl rfl).2.1

theorem handleAutoCheckout_inv (zone : GeofenceZone) (is8pm : Bool)
    (now : Instant) (s : SessionState)
    (h : s.lastCheckedInZoneRef.isSome = s.checkedIn) :
    (handleAutoCheckout zone is8pm now s).lastCheckedInZoneRef.isSome =
      (handleAutoCheckout zone is8pm now s).checkedIn := by
  cases hc : s.checkedIn with
  | false => rw [handleAutoCheckout_of_not_checkedIn _ _ _ _ hc]; exact h
  | true =>
      rw [handleAutoCheckout_of_checkedIn _ _ _ _ hc]
      rfl

theorem autoCheckoutEffect_inv (within : Coordinates → GeofenceZone → Bool)
    (now : Instant) (s : SessionState)
    (h : s.lastCheckedInZoneRef.isSome = s.checkedIn) :
    (autoCheckoutEffect within now s).lastCheckedInZoneRef.isSome =
      (autoCheckoutEffect within now s).checkedIn := by
  unfold autoCheckoutEffect
  split
  · exact h
  · split
    · exact h
    · dsimp only
      split
      · exact handleAutoCheckout_inv _ _ _ _ h
      · split
        · exact handleAutoCheckout_inv _ _ _ _ h
        · exact h

theorem handleFaceVerified_inv (name : String) (now : Instant) (s : SessionState)
    (h : s.lastCheckedInZoneRef.isSome = s.checkedIn) :
    (handleFaceVerified name now s).lastCheckedInZoneRef.isSome =
      (handleFaceVerified name now s).checkedIn := by
  unfold handleFaceVerified
  dsimp only
  split
  · split
    · rfl
    · exact h
  · exact h

theorem handleInitiateCheckOut_inv (now : Instant) (s : SessionState)
    (h : s.lastCheckedInZoneRef.isSome = s.checkedIn) :
    (handleInitiateCheckOut now s).lastCheckedInZoneRef.isSome =
      (handleInitiateCheckOut now s).checkedIn := by
  unfold handleInitiateCheckOut
  split
  · exact h
  · split
    · exact h
    · rw [handleManualCheckout_eq]
      rfl

/-- Claim C4: in every reachable session state, the recorded check-in zone
is non-none exactly when `checkedIn` is true, and every single transition
preserves this coupling (the two fields are only ever set or cleared
together). -/
theorem checkin_state_coupling (within : Coordinates → GeofenceZone → Bool) :
    (∀ s, Reachable within s → s.lastCheckedInZoneRef.isSome = s.checkedIn) ∧
    (∀ s t, Step within s t → s.lastCheckedInZoneRef.isSome = s.checkedIn →
      t.lastCheckedInZoneRef.isSome = t.checkedIn) := by
  have pres : ∀ s t, Step within s t →
      s.lastCheckedInZoneRef.isSome = s.checkedIn →
      t.lastCheckedInZoneRef.isSome = t.checkedIn := by
    intro s t hstep hinv
    cases hstep with
    | location now loc s =>
        unfold locationUpdateEvent
        refine autoCheckoutEffect_inv within now _ ?_
        rw [locationUpdate_lastCheckedInZoneRef, locationUpdate_checkedIn]
        exact hinv
    | deadline zone now s => exact handleAutoCheckout_inv _ _ _ _ hinv
    | faceVerified name now s => exact handleFaceVerified_inv _ _ _ hinv
    | initiateCheckIn s =>
        unfold handleInitiateCheckIn
        split
        · exact hinv
        · exact hinv
    | initiateCheckOut now s => exact handleInitiateCheckOut_inv _ _ hinv
    | select zone s hmem =>
        unfold selectZone
        dsimp only
        split
        · exact hinv
        · exact hinv
  refine ⟨?_, pres⟩
  intro s hr
  induction hr with
  | init => rfl
  | step hr hstep ih => exact pres _ _ hstep ih

theorem checkin_state_coupling_witness :
    initialState.lastCheckedInZoneRef.isSome = initialState.checkedIn :=
  (checkin_state_coupling (fun _ _ => true)).1 initialState Reachable.init

theorem handleAutoCheckout_nearbyZones (zone : GeofenceZone) (is8pm : Bool)
    (now : Instant) (s : SessionState) :
    (handleAutoCheckout zone is8pm now s).nearbyZones = s.nearbyZones := by
  cases hc : s.checkedIn with
  | false => rw [handleAutoCheckout_of_not_checkedIn _ _ _ _ hc]
  | true => rw [handleAutoCheckout_of_checkedIn _ _ _ _ hc]

theorem handleAutoCheckout_activeZone (zone : GeofenceZone) (is8pm : Bool)
    (now : Instant) (s : SessionState) :
    (handleAutoCheckout zone is8pm now s).activeZone = s.activeZone := by
  cases hc : s.checkedIn with
  | false => rw [handleAutoCheckout_of_not_checkedIn _ _ _ _ hc]
  | true => rw [handleAutoCheckout_of_checkedIn _ _ _ _ hc]

theorem autoCheckoutEffect_nearbyZones (within : Coordinates → GeofenceZone → Bool)
    (now : Instant) (s : SessionState) :
    (autoCheckoutEffect within now s).nearbyZones = s.nearbyZones := by
  unfold autoCheckoutEffect
  split
  · rfl
  · split
    · rfl
    · dsimp only
      split
      · rw [handleAutoCheckout_nearbyZones]
      · split
        · rw [handleAutoCheckout_nearbyZones]
        · rfl

theorem autoCheckoutEffect_activeZone (within : Coordinates → GeofenceZone → Bool)
    (now : Instant) (s : SessionState) :
    (autoCheckoutEffect within now s).activeZone = s.activeZone := by
  unfold autoCheckoutEffect
  split
  · rfl
  · split
    · rfl
    · dsimp only
      split
      · rw [handleAutoCheckout_activeZone]
      · split
        · rw [handleAutoCheckout_activeZone]
        · rfl

theorem locationUpdate_nearbyZones (within : Coordinates → GeofenceZone → Bool)
    (loc : Option Coordinates) (s : SessionState) :
    (locationUpdate within loc s).nearbyZones =
      GEOFENCE_ZONES.filter (fun zone => isWithinB within loc zone) := by
  cases loc with
  | none => simp [locationUpdate, isWithinB]
  | some c => simp [locationUpdate, zonesContaining, isWithinB]

theorem locationUpdate_activeZone (within : Coordinates → GeofenceZone → Bool)
    (loc : Option Coordinates) (s : SessionState) :
    (locationUpdate within loc s).activeZone =
      recomputeActiveZone ((locationUpdate within loc s).nearbyZones) s.activeZone := by
  cases loc with
  | none => cases s.activeZone <;> rfl
  | some c => rfl

theorem registry_id_inj :
    ∀ z1 ∈ GEOFENCE_ZONES, ∀ z2 ∈ GEOFENCE_ZONES, z1.id = z2.id → z1 = z2 := by
  intro z1 h1 z2 h2 hid
  simp only [GEOFENCE_ZONES, List.mem_cons, List.not_mem_nil, or_false] at h1 h2
  rcases h1 with h1 | h1 | h1 <;> rcases h2 with h2 | h2 | h2 <;>
    subst h1 <;> subst h2 <;> first | rfl | simp at hid

theorem any_id_iff_mem (p : GeofenceZone → Bool) (z : GeofenceZone)
    (hz : z ∈ GEOFENCE_ZONES) :
    ((GEOFENCE_ZONES.filter p).any (fun z2 => z2.id == z.id) = true) ↔
      z ∈ GEOFENCE_ZONES.filter p := by
  constructor
  · intro h
    obtain ⟨z2, hz2, hid⟩ := List.any_eq_true.1 h
    have hz2' : z2 ∈ GEOFENCE_ZONES := (List.mem_filter.1 hz2).1
    have hzz : z2 = z := registry_id_inj z2 hz2' z hz (eq_of_beq hid)
    rwa [hzz] at hz2
  · intro h
    exact List.any_eq_true.2 ⟨z, h, by simp⟩

theorem zonesOk_of_eq {s t : SessionState}
    (h1 : t.nearbyZones = s.nearbyZones) (h2 : t.activeZone = s.activeZone)
    (h : zonesOk s) : zonesOk t := by
  unfold zonesOk
  rw [h1, h2]
  exact h

/-- Claim C1: every reachable session state satisfies `zonesOk` (both zone
fields only hold registry zones); under that invariant, every location
update recomputes `nearbyZones` as the registry zones containing the new
location in registry order, recomputes `activeZone` as the previous active
zone when still nearby, else the first nearby zone, else none, and the
resulting `activeZone`, whenever non-none, is an element of the resulting
`nearbyZones`. -/
theorem zone_recomputation_spec (within : Coordinates → GeofenceZone → Bool) :
    (∀ s, Reachable within s → zonesOk s) ∧
    (∀ now loc s, zonesOk s →
      (locationUpdateEvent within now loc s).nearbyZones =
        GEOFENCE_ZONES.filter (fun zone => isWithinB within loc zone) ∧
      (locationUpdateEvent within now loc s).activeZone =
        (match s.activeZone with
         | some z =>
             if z ∈ (locationUpdateEvent within now loc s).nearbyZones then some z
             else (locationUpdateEvent within now loc s).nearbyZones.head?
         | none => (locationUpdateEvent within now loc s).nearbyZones.head?) ∧
      (∀ z, (locationUpdateEvent within now loc s).activeZone = some z →
        z ∈ (locationUpdateEvent within now loc s).nearbyZones)) := by
  have hnear : ∀ now loc s, (locationUpdateEvent within now loc s).nearbyZones =
      GEOFENCE_ZONES.filter (fun zone => isWithinB within loc zone) := by
    intro now loc s
    unfold locationUpdateEvent
    rw [autoCheckoutEffect_nearbyZones, locationUpdate_nearbyZones]
  have hact : ∀ now loc s, (locationUpdateEvent within now loc s).activeZone =
      recomputeActiveZone
        (GEOFENCE_ZONES.filter (fun zone => isWithinB within loc zone))
        s.activeZone := by
    intro now loc s
    unfold locationUpdateEvent
    rw [autoCheckoutEffect_activeZone, locationUpdate_activeZone,
      locationUpdate_nearbyZones]
  have main : ∀ now loc s, zonesOk s →
      (locationUpdateEvent within now loc s).nearbyZones =
        GEOFENCE_ZONES.filter (fun zone => isWithinB within loc zone) ∧
      (locationUpdateEvent within now loc s).activeZone =
        (match s.activeZone with
         | some z =>
             if z ∈ (locationUpdateEvent within now loc s).nearbyZones then some z
             else (locationUpdateEvent within now loc s).nearbyZones.head?
         | none => (locationUpdateEvent within now loc s).nearbyZones.head?) ∧
      (∀ z, (locationUpdateEvent within now loc s).activeZone = some z →
        z ∈ (locationUpdateEvent within now loc s).nearbyZones) := by
    intro now loc s hOk
    refine ⟨hnear now loc s, ?_, ?_⟩
    · rw [hact now loc s, hnear now loc s]
      cases haz : s.activeZone with
      | none => rfl
      | some z =>
          have hzreg : z ∈ GEOFENCE_ZONES := hOk.2 z haz
          unfold recomputeActiveZone
          dsimp only
          by_cases hm : z ∈ GEOFENCE_ZONES.filter (fun zone => isWithinB within loc zone)
          · rw [if_pos ((any_id_iff_mem _ z hzreg).2 hm), if_pos hm]
          · rw [if_neg (fun hc => hm ((any_id_iff_mem _ z hzreg).1 hc)), if_neg hm]
    · intro z hz'
      rw [hnear now loc s]
      rw [hact now loc s] at hz'
      unfold recomputeActiveZone at hz'
      cases haz : s.activeZone with
      | none =>
          rw [haz] at hz'
          exact mem_of_head?_eq hz'
      | some z0 =>
          rw [haz] at hz'
          dsimp only at hz'
          by_cases hb : ((GEOFENCE_ZONES.filter
              (fun zone => isWithinB within loc zone)).any
                (fun z2 => z2.id == z0.id)) = true
          · rw [if_pos hb] at hz'
            have hz0reg : z0 ∈ GEOFENCE_ZONES := hOk.2 z0 haz
            have hzz : z0 = z := by injection hz'
            rw [← hzz]
            exact (any_id_iff_mem _ z0 hz0reg).1 hb
          · rw [if_neg hb] at hz'
            exact mem_of_head?_eq hz'
  have presOk : ∀ a b, Step within a b → zonesOk a → zonesOk b := by
    intro a b hstep hOk
    cases hstep with
    | location now loc =>
        obtain ⟨h1, _, h3⟩ := main now loc a hOk
        constructor
        · intro z hz
          rw [h1] at hz
          exact (List.mem_filter.1 hz).1
        · intro z hz
          have hmem := h3 z hz
          rw [h1] at hmem
          exact (List.mem_filter.1 hmem).1
    | deadline zone now =>
        exact zonesOk_of_eq (handleAutoCheckout_nearbyZones _ _ _ _)
          (handleAutoCheckout_activeZone _ _ _ _) hOk
    | faceVerified name now =>
        refine zonesOk_of_eq ?_ ?_ hOk <;>
          · unfold handleFaceVerified performCheckIn
            dsimp only
            split
            · split <;> rfl
            · rfl
    | initiateCheckIn =>
        refine zonesOk_of_eq ?_ ?_ hOk <;>
          · unfold handleInitiateCheckIn
            split <;> rfl
    | initiateCheckOut now =>
        refine zonesOk_of_eq ?_ ?_ hOk <;>
          · unfold handleInitiateCheckOut
            split
            · rfl
            · split
              · rfl
              · rw [handleManualCheckout_eq]
    | select zone s hmem =>
        have h1 : (selectZone zone a).nearbyZones = a.nearbyZones := by
          unfold selectZone
          dsimp only
          split <;> rfl
        have h2 : (selectZone zone a).activeZone = some zone := by
          unfold selectZone
          dsimp only
          split <;> rfl
        constructor
        · intro z hz
          rw [h1] at hz
          exact hOk.1 z hz
        · intro z hz
          rw [h2] at hz
          cases hz
          exact hOk.1 zone hmem
  refine ⟨?_, main⟩
  intro s0 hr
  induction hr with
  | init => exact ⟨by simp [initialState], by simp [initialState]⟩
  | step hr hstep ih => exact presOk _ _ hstep ih

theorem zone_recomputation_spec_witness :
    (locationUpdateEvent (fun _ _ => true) tenAM none initialState).nearbyZones =
      GEOFENCE_ZONES.filter
        (fun zone => isWithinB (fun _ _ => true) none zone) :=
  ((zone_recomputation_spec (fun _ _ => true)).2 tenAM none initialState
    ⟨by simp [initialState], by simp [initialState]⟩).1

theorem calculateDistance_symm (lat1 lon1 lat2 lon2 : ℝ) :
    calculateDistance lat1 lon1 lat2 lon2 = calculateDistance lat2 lon2 lat1 lon1 := by
  have ha :
      Real.sin ((lat2 - lat1) * Real.pi / 180 / 2) *
            Real.sin ((lat2 - lat1) * Real.pi / 180 / 2) +
          Real.cos (lat1 * Real.pi / 180) * Real.cos (lat2 * Real.pi / 180) *
            Real.sin ((lon2 - lon1) * Real.pi / 180 / 2) *
            Real.sin ((lon2 - lon1) * Real.pi / 180 / 2) =
        Real.sin ((lat1 - lat2) * Real.pi / 180 / 2) *
            Real.sin ((lat1 - lat2) * Real.pi / 180 / 2) +
          Real.cos (lat2 * Real.pi / 180) * Real.cos (lat1 * Real.pi / 180) *
            Real.sin ((lon1 - lon2) * Real.pi / 180 / 2) *
            Real.sin ((lon1 - lon2) * Real.pi / 180 / 2) := by
    have h1 : (lat1 - lat2) * Real.pi / 180 / 2 =
        -((lat2 - lat1) * Real.pi / 180 / 2) := by ring
    have h2 : (lon1 - lon2) * Real.pi / 180 / 2 =
        -((lon2 - lon1) * Real.pi / 180 / 2) := by ring
    rw [h1, h2, Real.sin_neg, Real.sin_neg]
    ring
  unfold calculateDistance
  dsimp only
  rw [ha]

/-- Claim C9: geofence membership is exactly the comparison of the
haversine distance to the zone center against the zone radius, the distance
function is symmetric in its two coordinate pairs, and an absent point is
never inside any zone (the null guard returns falsehood, it does not
throw). -/
theorem geofence_math_spec :
    (∀ (c : Coordinates) (zone : GeofenceZone),
        isWithinGeofence (some c) zone ↔
          distanceMeters c (zoneCenter zone) ≤ (zone.radiusInMeters : ℝ)) ∧
    (∀ lat1 lon1 lat2 lon2 : ℝ,
        calculateDistance lat1 lon1 lat2 lon2 = calculateDistance lat2 lon2 lat1 lon1) ∧
    (∀ p q : Coordinates, distanceMeters p q = distanceMeters q p) ∧
    (∀ zone : GeofenceZone, isWithinGeofence none zone ↔ False) :=
  ⟨fun _ _ => Iff.rfl, calculateDistance_symm,
    fun p q => calculateDistance_symm p.latitude p.longitude q.latitude q.longitude,
    fun _ => Iff.rfl⟩

/-- Claim C10: registering a user whose email is already present responds
409 and leaves the stored collection unchanged; only when no stored user
carries the email is the user appended and 201 returned. -/
theorem register_user_conflict (users : List StoredUser) (req : RegisterRequest)
    (hashedPassword : String) :
    ((∃ u ∈ users, u.email = req.email) →
      registerUser users req hashedPassword = (409, users)) ∧
    ((∀ u ∈ users, u.email ≠ req.email) →
      registerUser users req hashedPassword =
        (201, users ++ [mkUser req hashedPassword])) := by
  constructor
  · rintro ⟨u, hu, he⟩
    cases hf : findOneByEmail users req.email with
    | some v =>
        unfold registerUser
        rw [hf]
    | none =>
        exfalso
        unfold findOneByEmail at hf
        exact List.find?_eq_none.1 hf u hu (by simp [he])
  · intro hall
    cases hf : findOneByEmail users req.email with
    | some v =>
        exfalso
        unfold findOneByEmail at hf
        have hv := List.find?_some hf
        exact hall v (List.mem_of_find?_eq_some hf) (eq_of_beq hv)
    | none =>
        unfold registerUser
        rw [hf]

theorem register_user_conflict_witness :
    registerUser sampleDirectory sampleUserReq2 "hash2" = (409, sampleDirectory) ∧
    registerUser [] sampleUserReq "hash1" = (201, [mkUser sampleUserReq "hash1"]) :=
  ⟨(register_user_conflict sampleDirectory sampleUserReq2 "hash2").1
      ⟨mkUser sampleUserReq "hash1", by simp [sampleDirectory], rfl⟩,
    (register_user_conflict [] sampleUserReq "hash1").2 (by simp)⟩

end Georilla
